import Mathlib

/-!
Verification of spawn_basic.py, a minimal CARLA data-capture script.

The script is embedded shallowly:

* The two callback factories save_lidar and save_rgb are modelled as pure
  functions from a payload record to the file write they perform
  (Option-valued: numpy raises when the buffer shape is wrong).
* The main routine is modelled as a trace-producing function over a
  configuration Cfg describing the outcomes of every external (simulator)
  call, mirroring the Python control flow statement by statement.
-/

namespace SpawnBasic

/-- Python f-string formatting with the 06 spec: decimal digits of n,
left-padded with zeros to a minimum width of 6 characters. -/
def pad6 (n : Nat) : String :=
  String.mk (List.replicate (6 - (toString n).length) '0') ++ toString n

/-- One file write performed by a callback: the target path and the byte
content handed to the writing primitive (tofile, or the image encoder). -/
structure FileWrite where
  path : String
  bytes : List UInt8
  deriving DecidableEq, Repr

/-- carla.LidarMeasurement as seen by the callback: the simulator frame
counter at production time and the raw byte buffer, plus payload fields
the callback never reads (timestamp, horizontal angle, channel count). -/
structure LidarMeasurement where
  frame : Nat
  raw_data : List UInt8
  timestamp : Nat
  horizontal_angle : Nat
  channels : Nat
  deriving DecidableEq, Repr

/-- carla.Image as seen by the callback: frame counter, raw BGRA buffer,
reported resolution, plus fields the callback never reads. -/
structure Image where
  frame : Nat
  raw_data : List UInt8
  width : Nat
  height : Nat
  fov : Nat
  timestamp : Nat
  deriving DecidableEq, Repr

/-- np.frombuffer with dtype float32: the buffer is viewed as consecutive
4-byte little-endian words (low byte first); it raises (none) when the
buffer length is not a multiple of the 4-byte item size. -/
def chunk4 : List UInt8 → Option (List (UInt8 × UInt8 × UInt8 × UInt8))
  | [] => some []
  | a :: b :: c :: d :: rest => (chunk4 rest).map (fun l => (a, b, c, d) :: l)
  | _ => none

/-- ndarray.tofile on a float32 array: each word is written back low byte
first, exactly as it sits in memory. -/
def flatten4 (l : List (UInt8 × UInt8 × UInt8 × UInt8)) : List UInt8 :=
  l.flatMap (fun w => [w.1, w.2.1, w.2.2.1, w.2.2.2])

/-- The range-scanner callback produced by save_lidar(out_dir): view the
raw buffer as little-endian float32 values and write them with tofile to
out_dir / f-string frame 06 .bin. -/
def save_lidar (out_dir : String) (pointcloud : LidarMeasurement) : Option FileWrite :=
  (chunk4 pointcloud.raw_data).map (fun arr =>
    { path := out_dir ++ "/" ++ pad6 pointcloud.frame ++ ".bin"
      bytes := flatten4 arr })

/-- The slice reshape(height, width, 4)[:, :, :3] on the flat row-major
buffer: keep the first three bytes (B, G, R) of each 4-byte pixel, drop
the alpha byte. -/
def dropAlpha : List UInt8 → List UInt8
  | b :: g :: r :: _ :: rest => b :: g :: r :: dropAlpha rest
  | _ => []

/-- The camera callback produced by save_rgb(out_dir): reshape the raw
buffer to (height, width, 4) — numpy raises (none) when the length does
not match — drop the alpha channel and hand the BGR pixel buffer to
cv2.imwrite targeting out_dir / f-string frame 06 .png. -/
def save_rgb (out_dir : String) (image : Image) : Option FileWrite :=
  if image.raw_data.length = image.height * image.width * 4 then
    some { path := out_dir ++ "/" ++ pad6 image.frame ++ ".png"
           bytes := dropAlpha image.raw_data }
  else none

/-! ## The main routine as a trace model

Every call that crosses the boundary to the simulator (or the filesystem)
is recorded as an event; Cfg fixes the outcome of each external call; the
outcome of the run distinguishes the Python exit paths. -/

/-- One observable action of main, in program order. -/
inductive Ev where
  | mkdir (path : String)
  | connect (host : String) (port : Nat)
  | setTimeout
  | getWorld
  | getBlueprintLibrary
  | filterBp (pattern : String)
  | getSpawnPoints
  | trySpawnActor (bp : String) (spawnPoint : Nat)
  | findBp (name : String)
  | setAttr (key : String) (val : String)
  | spawnActorAttached (bp : String) (parent : String)
  | listen (sensor : String)
  | setAutopilot (enabled : Bool)
  | printMsg (msg : String)
  | getSnapshotFrame (k : Nat)
  | sleep
  | stop (sensor : String)
  | destroy (actor : String)
  deriving DecidableEq, Repr

/-- How the Python process terminates: exit code 0 only for ok.
stuck marks a run whose polling loop exceeded the modelling fuel. -/
inductive Outcome where
  | ok
  | fatalIndexError
  | fatalNotFound (name : String)
  | fatalRuntime (msg : String)
  | fatalAttach (bp : String)
  | fatalInterrupt
  | stuck
  deriving DecidableEq, Repr

/-- True exactly when the process exit status is zero. -/
def Outcome.exitZero : Outcome → Bool
  | .ok => true
  | _ => false

/-- Outcomes of every external call main performs, plus its arguments. -/
structure Cfg where
  host : String
  port : Nat
  framesArg : Nat
  out : String
  vehicleFilter : List String
  spawnPoints : List Nat
  egoSpawnOk : Bool
  lidarFindOk : Bool
  lidarAttachOk : Bool
  camFindOk : Bool
  camAttachOk : Bool
  frameAt : Nat → Nat
  interruptAt : Option Nat
  lidarAlive : Bool
  camAlive : Bool
  egoAlive : Bool

/-- The finally block of main: stop both sensors, disable autopilot,
destroy scanner, camera, vehicle in that order, each destroy guarded by
the is_alive check. -/
def teardownEvs (cfg : Cfg) : List Ev :=
  [Ev.printMsg "Stopping sensors ...", Ev.stop "lidar", Ev.stop "camera",
   Ev.setAutopilot false, Ev.printMsg "Destroying actors ..."]
  ++ (if cfg.lidarAlive then [Ev.destroy "lidar"] else [])
  ++ (if cfg.camAlive then [Ev.destroy "camera"] else [])
  ++ (if cfg.egoAlive then [Ev.destroy "ego"] else [])
  ++ [Ev.printMsg "Done."]

/-- The while loop of main: poll the snapshot frame (query index k) and
sleep 0.05 s while the counter is below target. Returns the loop events,
whether a keyboard interrupt arrived during a sleep, and whether the loop
finished within the given fuel. -/
def pollLoop (cfg : Cfg) (target : Nat) : Nat → Nat → List Ev × Bool × Bool
  | 0, _ => ([], false, false)
  | fuel + 1, k =>
    if cfg.frameAt k < target then
      if cfg.interruptAt = some k then
        ([Ev.getSnapshotFrame k, Ev.sleep], true, true)
      else
        let r := pollLoop cfg target fuel (k + 1)
        (Ev.getSnapshotFrame k :: Ev.sleep :: r.1, r.2)
    else
      ([Ev.getSnapshotFrame k], false, true)

/-- main translated statement by statement: directory creation, client
connection, template resolution, vehicle spawn, sensor attachment,
callback registration, the capture loop, and the finally-block teardown.
A setup failure takes the Python exception path: the function returns at
that point, and the finally block does not run because the try statement
has not been entered yet. -/
def mainRun (cfg : Cfg) (fuel : Nat) : List Ev × Outcome :=
  let t0 := [Ev.mkdir (cfg.out ++ "/velodyne"), Ev.mkdir (cfg.out ++ "/images"),
             Ev.connect cfg.host cfg.port, Ev.setTimeout, Ev.getWorld,
             Ev.getBlueprintLibrary, Ev.filterBp "vehicle.tesla.model3"]
  match cfg.vehicleFilter with
  | [] => (t0, .fatalIndexError)
  | egoBp :: _ =>
    let t1 := t0 ++ [Ev.getSpawnPoints]
    match cfg.spawnPoints with
    | [] => (t1, .fatalIndexError)
    | spawnPt :: _ =>
      let t2 := t1 ++ [Ev.trySpawnActor egoBp spawnPt]
      if ¬ cfg.egoSpawnOk then
        (t2, .fatalRuntime "Failed to spawn ego vehicle (spawn point occupied?)")
      else
        let t3 := t2 ++ [Ev.findBp "sensor.lidar.ray_cast"]
        if ¬ cfg.lidarFindOk then (t3, .fatalNotFound "sensor.lidar.ray_cast")
        else
          let t4 := t3 ++ [Ev.setAttr "channels" "64",
                           Ev.setAttr "rotation_frequency" "10",
                           Ev.setAttr "points_per_second" "1300000",
                           Ev.spawnActorAttached "sensor.lidar.ray_cast" "ego"]
          if ¬ cfg.lidarAttachOk then (t4, .fatalAttach "sensor.lidar.ray_cast")
          else
            let t5 := t4 ++ [Ev.findBp "sensor.camera.rgb"]
            if ¬ cfg.camFindOk then (t5, .fatalNotFound "sensor.camera.rgb")
            else
              let t6 := t5 ++ [Ev.setAttr "image_size_x" "1280",
                               Ev.setAttr "image_size_y" "720",
                               Ev.setAttr "fov" "90",
                               Ev.spawnActorAttached "sensor.camera.rgb" "ego"]
              if ¬ cfg.camAttachOk then (t6, .fatalAttach "sensor.camera.rgb")
              else
                let t7 := t6 ++ [Ev.listen "lidar", Ev.listen "camera",
                                 Ev.setAutopilot true,
                                 Ev.printMsg ("Capturing " ++ toString cfg.framesArg
                                   ++ " frames ... (Ctrl-C to abort)"),
                                 Ev.getSnapshotFrame 0]
                let target := cfg.frameAt 0 + cfg.framesArg
                let r := pollLoop cfg target fuel 1
                if ¬ r.2.2 then (t7 ++ r.1, .stuck)
                else
                  (t7 ++ r.1 ++ teardownEvs cfg,
                   if r.2.1 then .fatalInterrupt else .ok)

/-- Setup succeeds end to end: every external call up to the camera
attachment returns a usable result. -/
def setupOk (cfg : Cfg) : Prop :=
  cfg.vehicleFilter ≠ [] ∧ cfg.spawnPoints ≠ [] ∧ cfg.egoSpawnOk = true ∧
  cfg.lidarFindOk = true ∧ cfg.lidarAttachOk = true ∧
  cfg.camFindOk = true ∧ cfg.camAttachOk = true

instance (cfg : Cfg) : Decidable (setupOk cfg) := by
  unfold setupOk; infer_instance

/-- The full event prefix of a run whose setup succeeded, up to and
including the baseline snapshot query, with bp the first vehicle-filter
result and pt the first spawn point. -/
def setupEvs (cfg : Cfg) (bp : String) (pt : Nat) : List Ev :=
  [Ev.mkdir (cfg.out ++ "/velodyne"), Ev.mkdir (cfg.out ++ "/images"),
   Ev.connect cfg.host cfg.port, Ev.setTimeout, Ev.getWorld,
   Ev.getBlueprintLibrary, Ev.filterBp "vehicle.tesla.model3",
   Ev.getSpawnPoints, Ev.trySpawnActor bp pt,
   Ev.findBp "sensor.lidar.ray_cast", Ev.setAttr "channels" "64",
   Ev.setAttr "rotation_frequency" "10", Ev.setAttr "points_per_second" "1300000",
   Ev.spawnActorAttached "sensor.lidar.ray_cast" "ego",
   Ev.findBp "sensor.camera.rgb", Ev.setAttr "image_size_x" "1280",
   Ev.setAttr "image_size_y" "720", Ev.setAttr "fov" "90",
   Ev.spawnActorAttached "sensor.camera.rgb" "ego",
   Ev.listen "lidar", Ev.listen "camera", Ev.setAutopilot true,
   Ev.printMsg ("Capturing " ++ toString cfg.framesArg ++ " frames ... (Ctrl-C to abort)"),
   Ev.getSnapshotFrame 0]

/-- A configuration in which every external call succeeds: one matching
vehicle blueprint, one free spawn point, a frame clock advancing by one
per query starting at 100, a budget of 3 frames, no interruption. -/
def cfgBase : Cfg :=
  { host := "127.0.0.1", port := 2000, framesArg := 3, out := "out",
    vehicleFilter := ["vehicle.tesla.model3"], spawnPoints := [7],
    egoSpawnOk := true, lidarFindOk := true, lidarAttachOk := true,
    camFindOk := true, camAttachOk := true,
    frameAt := fun k => 100 + k, interruptAt := none,
    lidarAlive := true, camAlive := true, egoAlive := true }

/-- Like cfgBase but the camera attachment (world.spawn_actor) raises. -/
def cfgCamAttachFails : Cfg := { cfgBase with camAttachOk := false }

/-- Like cfgBase but a keyboard interrupt arrives during the first sleep. -/
def cfgInterrupted : Cfg := { cfgBase with interruptAt := some 1 }

/-- Like cfgBase but try_spawn_actor returns None (spawn point occupied). -/
def cfgEgoSpawnFails : Cfg := { cfgBase with egoSpawnOk := false }

/-- Like cfgBase but the scanner blueprint lookup finds nothing. -/
def cfgLidarFindFails : Cfg := { cfgBase with lidarFindOk := false }

end SpawnBasic

namespace SpawnBasic

theorem chunk4_of_length_mul (n : Nat) :
    ∀ l : List UInt8, l.length = 4 * n →
      ∃ c, chunk4 l = some c ∧ flatten4 c = l := by
  induction n with
  | zero =>
    intro l hl
    have : l = [] := List.eq_nil_of_length_eq_zero (by simpa using hl)
    subst this
    exact ⟨[], rfl, rfl⟩
  | succ n ih =>
    intro l hl
    match l with
    | [] => simp [Nat.mul_succ] at hl
    | [a] => simp [Nat.mul_succ] at hl
    | [a, b] => simp [Nat.mul_succ] at hl
    | [a, b, c] => simp [Nat.mul_succ] at hl
    | a :: b :: c :: d :: rest =>
      have hrest : rest.length = 4 * n := by
        simp [List.length_cons] at hl
        omega
      obtain ⟨cs, hcs, hflat⟩ := ih rest hrest
      refine ⟨(a, b, c, d) :: cs, ?_, ?_⟩
      · simp [chunk4, hcs]
      · simp [flatten4] at hflat ⊢
        exact hflat

theorem dropAlpha_length_and_get (n : Nat) :
    ∀ l : List UInt8, l.length = 4 * n →
      (dropAlpha l).length = 3 * n ∧
      ∀ i ch, i < n → ch < 3 →
        (dropAlpha l).getD (3 * i + ch) 0 = l.getD (4 * i + ch) 0 := by
  induction n with
  | zero =>
    intro l hl
    have : l = [] := List.eq_nil_of_length_eq_zero (by simpa using hl)
    subst this
    exact ⟨rfl, by intro i ch hi _; omega⟩
  | succ n ih =>
    intro l hl
    match l with
    | [] => simp [Nat.mul_succ] at hl
    | [a] => simp [Nat.mul_succ] at hl
    | [a, b] => simp [Nat.mul_succ] at hl
    | [a, b, c] => simp [Nat.mul_succ] at hl
    | a :: b :: c :: d :: rest =>
      have hrest : rest.length = 4 * n := by
        simp [List.length_cons] at hl
        omega
      obtain ⟨ihlen, ihget⟩ := ih rest hrest
      constructor
      · simp [dropAlpha, ihlen]
        ring
      · intro i ch hi hch
        match i with
        | 0 =>
          interval_cases ch <;> simp [dropAlpha]
        | i + 1 =>
          have h3 : 3 * (i + 1) + ch = (3 * i + ch) + 1 + 1 + 1 := by ring
          have h4 : 4 * (i + 1) + ch = (4 * i + ch) + 1 + 1 + 1 + 1 := by ring
          rw [h3, h4]
          simp only [dropAlpha, List.getD_cons_succ]
          exact ihget i ch (by omega) hch

theorem mainRun_of_setupOk (cfg : Cfg) (fuel : Nat) (bp : String) (pt : Nat)
    (r1 : List String) (r2 : List Nat)
    (hv : cfg.vehicleFilter = bp :: r1) (hs : cfg.spawnPoints = pt :: r2)
    (h3 : cfg.egoSpawnOk = true) (h4 : cfg.lidarFindOk = true)
    (h5 : cfg.lidarAttachOk = true) (h6 : cfg.camFindOk = true)
    (h7 : cfg.camAttachOk = true) :
    mainRun cfg fuel =
      (if ¬ (pollLoop cfg (cfg.frameAt 0 + cfg.framesArg) fuel 1).2.2 then
        (setupEvs cfg bp pt ++ (pollLoop cfg (cfg.frameAt 0 + cfg.framesArg) fuel 1).1,
         .stuck)
      else
        (setupEvs cfg bp pt ++ (pollLoop cfg (cfg.frameAt 0 + cfg.framesArg) fuel 1).1
           ++ teardownEvs cfg,
         if (pollLoop cfg (cfg.frameAt 0 + cfg.framesArg) fuel 1).2.1 then
           .fatalInterrupt
         else .ok)) := by
  simp only [mainRun, hv, hs, h3, h4, h5, h6, h7, not_true, ite_false, if_false,
    Bool.not_true, setupEvs]
  split <;> simp

theorem pollLoop_interrupt_reached (cfg : Cfg) (target : Nat) :
    ∀ fuel j k, j ≤ k → k - j < fuel →
      (∀ i, j ≤ i → i ≤ k → cfg.frameAt i < target) →
      cfg.interruptAt = some k →
      (pollLoop cfg target fuel j).2 = (true, true) := by
  intro fuel
  induction fuel with
  | zero => intro j k h1 h2 _ _; omega
  | succ fuel ih =>
    intro j k hjk hfuel hlt hintr
    have hj : cfg.frameAt j < target := hlt j le_rfl hjk
    by_cases heq : j = k
    · subst heq
      simp [pollLoop, hj, hintr]
    · have hne : ¬ (cfg.interruptAt = some j) := by
        rw [hintr]
        simp
        omega
      simp only [pollLoop, if_pos hj, if_neg hne]
      exact ih (j + 1) k (by omega) (by omega)
        (fun i hi1 hi2 => hlt i (by omega) hi2) hintr

theorem mainRun_completed_has_teardown (cfg : Cfg) (fuel : Nat)
    (hdone : (mainRun cfg fuel).2 = .ok ∨ (mainRun cfg fuel).2 = .fatalInterrupt) :
    ∃ p, (mainRun cfg fuel).1 = p ++ teardownEvs cfg := by
  rcases hv : cfg.vehicleFilter with _ | ⟨bp, r1⟩
  · simp [mainRun, hv] at hdone
  rcases hs : cfg.spawnPoints with _ | ⟨pt, r2⟩
  · simp [mainRun, hv, hs] at hdone
  by_cases h3 : cfg.egoSpawnOk = true
  swap
  · simp [mainRun, hv, hs, h3] at hdone
  by_cases h4 : cfg.lidarFindOk = true
  swap
  · simp [mainRun, hv, hs, h3, h4] at hdone
  by_cases h5 : cfg.lidarAttachOk = true
  swap
  · simp [mainRun, hv, hs, h3, h4, h5] at hdone
  by_cases h6 : cfg.camFindOk = true
  swap
  · simp [mainRun, hv, hs, h3, h4, h5, h6] at hdone
  by_cases h7 : cfg.camAttachOk = true
  swap
  · simp [mainRun, hv, hs, h3, h4, h5, h6, h7] at hdone
  rw [mainRun_of_setupOk cfg fuel bp pt r1 r2 hv hs h3 h4 h5 h6 h7] at hdone ⊢
  by_cases hloop : (pollLoop cfg (cfg.frameAt 0 + cfg.framesArg) fuel 1).2.2 = true
  · refine ⟨setupEvs cfg bp pt ++ (pollLoop cfg (cfg.frameAt 0 + cfg.framesArg) fuel 1).1, ?_⟩
    simp [hloop]
  · simp [hloop] at hdone

/-- C1: the claim predicts that when attaching the second sensor raises
after the vehicle and the first sensor were created, each created actor
is still destroyed. On the code, the camera attachment failure occurs
before the try statement is entered, so no destroy (and no stop) ever
happens, although the vehicle and the scanner were created and the run is
fatal. -/
theorem c1_counterexample :
    cfgCamAttachFails.egoSpawnOk = true ∧
    cfgCamAttachFails.lidarAttachOk = true ∧
    cfgCamAttachFails.camAttachOk = false ∧
    cfgCamAttachFails.egoAlive = true ∧
    Ev.trySpawnActor "vehicle.tesla.model3" 7 ∈ (mainRun cfgCamAttachFails 10).1 ∧
    Ev.spawnActorAttached "sensor.lidar.ray_cast" "ego" ∈ (mainRun cfgCamAttachFails 10).1 ∧
    (mainRun cfgCamAttachFails 10).2.exitZero = false ∧
    Ev.destroy "ego" ∉ (mainRun cfgCamAttachFails 10).1 ∧
    Ev.destroy "lidar" ∉ (mainRun cfgCamAttachFails 10).1 := by
  decide

/-- C1 (amended): if the camera attachment raises after the vehicle and
the scanner were created, the run terminates with a fatal (non-zero)
status, but no teardown executes at all: the failure precedes the
try/finally, so no stop and no destroy is attempted on any actor,
created or never-created alike. -/
theorem c1_partial_setup_no_teardown (cfg : Cfg) (fuel : Nat)
    (bp : String) (pt : Nat) (r1 : List String) (r2 : List Nat)
    (hv : cfg.vehicleFilter = bp :: r1) (hs : cfg.spawnPoints = pt :: r2)
    (h3 : cfg.egoSpawnOk = true) (h4 : cfg.lidarFindOk = true)
    (h5 : cfg.lidarAttachOk = true) (h6 : cfg.camFindOk = true)
    (h7 : cfg.camAttachOk = false) :
    (mainRun cfg fuel).2 = .fatalAttach "sensor.camera.rgb" ∧
    (mainRun cfg fuel).2.exitZero = false ∧
    Ev.trySpawnActor bp pt ∈ (mainRun cfg fuel).1 ∧
    Ev.spawnActorAttached "sensor.lidar.ray_cast" "ego" ∈ (mainRun cfg fuel).1 ∧
    (∀ a, Ev.destroy a ∉ (mainRun cfg fuel).1) ∧
    (∀ s, Ev.stop s ∉ (mainRun cfg fuel).1) := by
  have hrun : mainRun cfg fuel =
      ([Ev.mkdir (cfg.out ++ "/velodyne"), Ev.mkdir (cfg.out ++ "/images"),
        Ev.connect cfg.host cfg.port, Ev.setTimeout, Ev.getWorld,
        Ev.getBlueprintLibrary, Ev.filterBp "vehicle.tesla.model3",
        Ev.getSpawnPoints, Ev.trySpawnActor bp pt,
        Ev.findBp "sensor.lidar.ray_cast", Ev.setAttr "channels" "64",
        Ev.setAttr "rotation_frequency" "10", Ev.setAttr "points_per_second" "1300000",
        Ev.spawnActorAttached "sensor.lidar.ray_cast" "ego",
        Ev.findBp "sensor.camera.rgb", Ev.setAttr "image_size_x" "1280",
        Ev.setAttr "image_size_y" "720", Ev.setAttr "fov" "90",
        Ev.spawnActorAttached "sensor.camera.rgb" "ego"],
       .fatalAttach "sensor.camera.rgb") := by
    simp [mainRun, hv, hs, h3, h4, h5, h6, h7]
  rw [hrun]
  refine ⟨rfl, rfl, by simp, by simp, ?_, ?_⟩
  · intro a
    simp
  · intro s
    simp

/-- C2: the claim predicts an interrupted run exits zero like a normal
completion. On the code the finally block does run the full teardown,
but the keyboard interrupt then propagates out of main, so the process
exits non-zero. -/
theorem c2_counterexample :
    cfgInterrupted.interruptAt = some 1 ∧
    (mainRun cfgInterrupted 10).2 = .fatalInterrupt ∧
    (mainRun cfgInterrupted 10).2.exitZero = false ∧
    Ev.stop "lidar" ∈ (mainRun cfgInterrupted 10).1 ∧
    Ev.stop "camera" ∈ (mainRun cfgInterrupted 10).1 ∧
    Ev.setAutopilot false ∈ (mainRun cfgInterrupted 10).1 ∧
    Ev.destroy "ego" ∈ (mainRun cfgInterrupted 10).1 ∧
    Ev.printMsg "Stopping sensors ..." ∈ (mainRun cfgInterrupted 10).1 ∧
    Ev.printMsg "Done." ∈ (mainRun cfgInterrupted 10).1 := by
  decide

/-- C2 (amended): a keyboard interrupt delivered during a sleep of the
polling loop is routed through try/finally, so the full draining
sequence — stop both sensors, disable autopilot, guarded destroys — still
executes and the teardown narration prints; the interrupt then propagates,
so the interrupted run exits with a non-zero status, unlike a normal
completion. -/
theorem c2_interrupt_still_tears_down (cfg : Cfg) (fuel k : Nat)
    (bp : String) (pt : Nat) (r1 : List String) (r2 : List Nat)
    (hv : cfg.vehicleFilter = bp :: r1) (hs : cfg.spawnPoints = pt :: r2)
    (h3 : cfg.egoSpawnOk = true) (h4 : cfg.lidarFindOk = true)
    (h5 : cfg.lidarAttachOk = true) (h6 : cfg.camFindOk = true)
    (h7 : cfg.camAttachOk = true)
    (hk : 1 ≤ k) (hfuel : k - 1 < fuel)
    (hintr : cfg.interruptAt = some k)
    (hbelow : ∀ i, 1 ≤ i → i ≤ k → cfg.frameAt i < cfg.frameAt 0 + cfg.framesArg) :
    (∃ p, (mainRun cfg fuel).1 = p ++ teardownEvs cfg) ∧
    (mainRun cfg fuel).2 = .fatalInterrupt ∧
    (mainRun cfg fuel).2.exitZero = false := by
  have hpoll : (pollLoop cfg (cfg.frameAt 0 + cfg.framesArg) fuel 1).2 = (true, true) :=
    pollLoop_interrupt_reached cfg (cfg.frameAt 0 + cfg.framesArg) fuel 1 k hk hfuel
      hbelow hintr
  have h21 : (pollLoop cfg (cfg.frameAt 0 + cfg.framesArg) fuel 1).2.1 = true := by
    rw [hpoll]
  have h22 : (pollLoop cfg (cfg.frameAt 0 + cfg.framesArg) fuel 1).2.2 = true := by
    rw [hpoll]
  rw [mainRun_of_setupOk cfg fuel bp pt r1 r2 hv hs h3 h4 h5 h6 h7]
  simp only [h21, h22, not_true, ite_false, if_false, ite_true, if_true, Bool.not_true]
  exact ⟨⟨setupEvs cfg bp pt ++ (pollLoop cfg (cfg.frameAt 0 + cfg.framesArg) fuel 1).1,
    by simp⟩, by trivial, by trivial⟩

/-- C3: whenever the teardown phase runs at all (the run ended normally
or by interruption), the trace ends with exactly: the stop of the
scanner, the stop of the camera, autopilot disabled, then the destroys in
the fixed order scanner, camera, vehicle, each present exactly when the
actor is still reported alive. -/
theorem c3_teardown_order (cfg : Cfg) (fuel : Nat)
    (hdone : (mainRun cfg fuel).2 = .ok ∨ (mainRun cfg fuel).2 = .fatalInterrupt) :
    ∃ p, (mainRun cfg fuel).1 = p ++
      ([Ev.printMsg "Stopping sensors ...", Ev.stop "lidar", Ev.stop "camera",
        Ev.setAutopilot false, Ev.printMsg "Destroying actors ..."]
       ++ (if cfg.lidarAlive then [Ev.destroy "lidar"] else [])
       ++ (if cfg.camAlive then [Ev.destroy "camera"] else [])
       ++ (if cfg.egoAlive then [Ev.destroy "ego"] else [])
       ++ [Ev.printMsg "Done."]) := by
  exact mainRun_completed_has_teardown cfg fuel hdone

/-- C4: every range-scanner payload whose buffer is a whole number of
float32 items is written verbatim — byte for byte — to the file
out_dir/frame-zero-padded-to-6.bin. -/
theorem c4_lidar_callback_verbatim (d : String) (p : LidarMeasurement)
    (h : p.raw_data.length % 4 = 0) :
    save_lidar d p =
      some { path := d ++ "/" ++ pad6 p.frame ++ ".bin", bytes := p.raw_data } := by
  obtain ⟨n, hn⟩ : ∃ n, p.raw_data.length = 4 * n :=
    ⟨p.raw_data.length / 4, by omega⟩
  obtain ⟨c, hc, hf⟩ := chunk4_of_length_mul n p.raw_data hn
  simp [save_lidar, hc, hf]

theorem c4_lidar_callback_verbatim_witness :
    let p : LidarMeasurement :=
      { frame := 42
        raw_data := [0, 0, 128, 63, 0, 0, 0, 64, 0, 0, 64, 64, 0, 0, 128, 62]
        timestamp := 5
        horizontal_angle := 90
        channels := 64 }
    p.raw_data.length % 4 = 0 ∧
    save_lidar "out/velodyne" p =
      some { path := "out/velodyne/000042.bin", bytes := p.raw_data } := by
  refine ⟨by decide, ?_⟩
  rw [c4_lidar_callback_verbatim "out/velodyne" _ (by decide)]
  rfl

/-- C5: every camera payload whose buffer matches the reported
height * width * 4 shape is written as a height-by-width, row-major,
3-channel (alpha-dropped) pixel buffer to out_dir/frame-zero-padded.png:
output byte (r, c, ch) equals input byte at offset (r * width + c) * 4 + ch. -/
theorem c5_rgb_callback_drops_alpha (d : String) (img : Image)
    (h : img.raw_data.length = img.height * img.width * 4) :
    ∃ w, save_rgb d img = some w ∧
      w.path = d ++ "/" ++ pad6 img.frame ++ ".png" ∧
      w.bytes.length = img.height * img.width * 3 ∧
      ∀ r c ch, r < img.height → c < img.width → ch < 3 →
        w.bytes.getD ((r * img.width + c) * 3 + ch) 0
          = img.raw_data.getD ((r * img.width + c) * 4 + ch) 0 := by
  have hn : img.raw_data.length = 4 * (img.height * img.width) := by omega
  obtain ⟨hlen, hget⟩ := dropAlpha_length_and_get (img.height * img.width) img.raw_data hn
  refine ⟨{ path := d ++ "/" ++ pad6 img.frame ++ ".png", bytes := dropAlpha img.raw_data },
    by simp [save_rgb, h], rfl, by rw [hlen]; ring, ?_⟩
  intro r c ch hr hc hch
  have hidx : r * img.width + c < img.height * img.width := by
    have h1 : (r + 1) * img.width ≤ img.height * img.width :=
      Nat.mul_le_mul_right _ (Nat.succ_le_of_lt hr)
    have h2 : (r + 1) * img.width = r * img.width + img.width := by ring
    omega
  have e3 : (r * img.width + c) * 3 + ch = 3 * (r * img.width + c) + ch := by ring
  have e4 : (r * img.width + c) * 4 + ch = 4 * (r * img.width + c) + ch := by ring
  rw [e3, e4]
  exact hget (r * img.width + c) ch hidx hch

theorem c5_rgb_callback_drops_alpha_witness :
    let img : Image :=
      { frame := 7
        raw_data := [10, 20, 30, 255, 11, 21, 31, 254, 12, 22, 32, 253,
                     13, 23, 33, 252, 14, 24, 34, 251, 15, 25, 35, 250]
        width := 3
        height := 2
        fov := 90
        timestamp := 9 }
    img.raw_data.length = img.height * img.width * 4 ∧
    ∃ w, save_rgb "out/images" img = some w ∧
      w.path = "out/images" ++ "/" ++ pad6 img.frame ++ ".png" ∧
      w.bytes.length = img.height * img.width * 3 ∧
      ∀ r c ch, r < img.height → c < img.width → ch < 3 →
        w.bytes.getD ((r * img.width + c) * 3 + ch) 0
          = img.raw_data.getD ((r * img.width + c) * 4 + ch) 0 := by
  exact ⟨by decide, c5_rgb_callback_drops_alpha "out/images" _ (by decide)⟩

/-- C6: the vehicle is spawned with the non-fatal try_spawn_actor, using
the first vehicle-filter result and the first spawn point; if no vehicle
is produced the run aborts at once with the descriptive RuntimeError:
exactly one spawn attempt is made, and no sensor is ever looked up,
attached, or listened to. -/
theorem c6_ego_spawn_failure_aborts (cfg : Cfg) (fuel : Nat)
    (bp : String) (pt : Nat) (r1 : List String) (r2 : List Nat)
    (hv : cfg.vehicleFilter = bp :: r1) (hs : cfg.spawnPoints = pt :: r2)
    (hfail : cfg.egoSpawnOk = false) :
    mainRun cfg fuel =
      ([Ev.mkdir (cfg.out ++ "/velodyne"), Ev.mkdir (cfg.out ++ "/images"),
        Ev.connect cfg.host cfg.port, Ev.setTimeout, Ev.getWorld,
        Ev.getBlueprintLibrary, Ev.filterBp "vehicle.tesla.model3",
        Ev.getSpawnPoints, Ev.trySpawnActor bp pt],
       .fatalRuntime "Failed to spawn ego vehicle (spawn point occupied?)") ∧
    (mainRun cfg fuel).1.countP
        (fun e => match e with | Ev.trySpawnActor _ _ => true | _ => false) = 1 ∧
    (∀ b par, Ev.spawnActorAttached b par ∉ (mainRun cfg fuel).1) ∧
    (∀ n, Ev.findBp n ∉ (mainRun cfg fuel).1) ∧
    (∀ s, Ev.listen s ∉ (mainRun cfg fuel).1) := by
  have hrun : mainRun cfg fuel =
      ([Ev.mkdir (cfg.out ++ "/velodyne"), Ev.mkdir (cfg.out ++ "/images"),
        Ev.connect cfg.host cfg.port, Ev.setTimeout, Ev.getWorld,
        Ev.getBlueprintLibrary, Ev.filterBp "vehicle.tesla.model3",
        Ev.getSpawnPoints, Ev.trySpawnActor bp pt],
       .fatalRuntime "Failed to spawn ego vehicle (spawn point occupied?)") := by
    simp [mainRun, hv, hs, hfail]
  rw [hrun]
  refine ⟨rfl, by simp [List.countP_cons], ?_, ?_, ?_⟩
  · intro b par
    simp
  · intro n
    simp
  · intro s
    simp

/-- C7: after a fully successful setup, both callbacks are registered
(scanner first, camera second) and only then is autopilot enabled; the
baseline snapshot query follows and the loop is entered with target equal
to baseline plus the frame budget; each loop iteration polls the frame
counter, sleeps exactly when the counter is still below target, and the
loop exits without sleeping as soon as the counter reaches target. -/
theorem c7_capture_loop_polls_until_target (cfg : Cfg) (fuel : Nat)
    (bp : String) (pt : Nat) (r1 : List String) (r2 : List Nat)
    (hv : cfg.vehicleFilter = bp :: r1) (hs : cfg.spawnPoints = pt :: r2)
    (h3 : cfg.egoSpawnOk = true) (h4 : cfg.lidarFindOk = true)
    (h5 : cfg.lidarAttachOk = true) (h6 : cfg.camFindOk = true)
    (h7 : cfg.camAttachOk = true) :
    (∃ p rest, (mainRun cfg fuel).1 =
        p ++ [Ev.listen "lidar", Ev.listen "camera", Ev.setAutopilot true,
              Ev.printMsg ("Capturing " ++ toString cfg.framesArg
                ++ " frames ... (Ctrl-C to abort)"),
              Ev.getSnapshotFrame 0]
          ++ (pollLoop cfg (cfg.frameAt 0 + cfg.framesArg) fuel 1).1 ++ rest) ∧
    (∀ f k, cfg.frameAt k < cfg.frameAt 0 + cfg.framesArg →
        ∃ tail, (pollLoop cfg (cfg.frameAt 0 + cfg.framesArg) (f + 1) k).1
          = Ev.getSnapshotFrame k :: Ev.sleep :: tail) ∧
    (∀ f k, ¬ cfg.frameAt k < cfg.frameAt 0 + cfg.framesArg →
        pollLoop cfg (cfg.frameAt 0 + cfg.framesArg) (f + 1) k
          = ([Ev.getSnapshotFrame k], false, true)) := by
  refine ⟨?_, ?_, ?_⟩
  · rw [mainRun_of_setupOk cfg fuel bp pt r1 r2 hv hs h3 h4 h5 h6 h7]
    by_cases hloop : (pollLoop cfg (cfg.frameAt 0 + cfg.framesArg) fuel 1).2.2 = true
    · refine ⟨[Ev.mkdir (cfg.out ++ "/velodyne"), Ev.mkdir (cfg.out ++ "/images"),
        Ev.connect cfg.host cfg.port, Ev.setTimeout, Ev.getWorld,
        Ev.getBlueprintLibrary, Ev.filterBp "vehicle.tesla.model3",
        Ev.getSpawnPoints, Ev.trySpawnActor bp pt,
        Ev.findBp "sensor.lidar.ray_cast", Ev.setAttr "channels" "64",
        Ev.setAttr "rotation_frequency" "10", Ev.setAttr "points_per_second" "1300000",
        Ev.spawnActorAttached "sensor.lidar.ray_cast" "ego",
        Ev.findBp "sensor.camera.rgb", Ev.setAttr "image_size_x" "1280",
        Ev.setAttr "image_size_y" "720", Ev.setAttr "fov" "90",
        Ev.spawnActorAttached "sensor.camera.rgb" "ego"],
        teardownEvs cfg, ?_⟩
      simp [hloop, setupEvs]
    · refine ⟨[Ev.mkdir (cfg.out ++ "/velodyne"), Ev.mkdir (cfg.out ++ "/images"),
        Ev.connect cfg.host cfg.port, Ev.setTimeout, Ev.getWorld,
        Ev.getBlueprintLibrary, Ev.filterBp "vehicle.tesla.model3",
        Ev.getSpawnPoints, Ev.trySpawnActor bp pt,
        Ev.findBp "sensor.lidar.ray_cast", Ev.setAttr "channels" "64",
        Ev.setAttr "rotation_frequency" "10", Ev.setAttr "points_per_second" "1300000",
        Ev.spawnActorAttached "sensor.lidar.ray_cast" "ego",
        Ev.findBp "sensor.camera.rgb", Ev.setAttr "image_size_x" "1280",
        Ev.setAttr "image_size_y" "720", Ev.setAttr "fov" "90",
        Ev.spawnActorAttached "sensor.camera.rgb" "ego"],
        [], ?_⟩
      simp [hloop, setupEvs]
  · intro f k hk
    by_cases hi : cfg.interruptAt = some k
    · exact ⟨[], by simp [pollLoop, hk, hi]⟩
    · exact ⟨(pollLoop cfg (cfg.frameAt 0 + cfg.framesArg) f (k + 1)).1,
        by simp [pollLoop, hk, hi]⟩
  · intro f k hk
    simp [pollLoop, hk]

/-- C8: the claim predicts a failed template lookup aborts before any
actor is spawned. On the code the sensor-template lookups happen after
the vehicle was already spawned: with the scanner lookup failing, the
trace still contains the successful vehicle spawn attempt. -/
theorem c8_counterexample :
    cfgLidarFindFails.lidarFindOk = false ∧
    cfgLidarFindFails.egoSpawnOk = true ∧
    (mainRun cfgLidarFindFails 10).2 = .fatalNotFound "sensor.lidar.ray_cast" ∧
    Ev.trySpawnActor "vehicle.tesla.model3" 7 ∈ (mainRun cfgLidarFindFails 10).1 := by
  decide

/-- C8 (amended): a template-resolution failure aborts the run at the
point of lookup, with no teardown of already-created actors: an empty
vehicle-template filter aborts with an index error before any actor is
spawned; a failed scanner-template lookup aborts only after the vehicle
was already spawned, though before any sensor is attached; a failed
camera-template lookup aborts after the vehicle and the scanner were
created, before the camera is attached. -/
theorem c8_template_failures_located (cfg : Cfg) (fuel : Nat) :
    (cfg.vehicleFilter = [] →
      (mainRun cfg fuel).2 = .fatalIndexError ∧
      (∀ b p, Ev.trySpawnActor b p ∉ (mainRun cfg fuel).1) ∧
      (∀ b p, Ev.spawnActorAttached b p ∉ (mainRun cfg fuel).1)) ∧
    (∀ bp pt r1 r2, cfg.vehicleFilter = bp :: r1 → cfg.spawnPoints = pt :: r2 →
      cfg.egoSpawnOk = true → cfg.lidarFindOk = false →
      (mainRun cfg fuel).2 = .fatalNotFound "sensor.lidar.ray_cast" ∧
      Ev.trySpawnActor bp pt ∈ (mainRun cfg fuel).1 ∧
      (∀ b p, Ev.spawnActorAttached b p ∉ (mainRun cfg fuel).1) ∧
      (∀ a, Ev.destroy a ∉ (mainRun cfg fuel).1)) ∧
    (∀ bp pt r1 r2, cfg.vehicleFilter = bp :: r1 → cfg.spawnPoints = pt :: r2 →
      cfg.egoSpawnOk = true → cfg.lidarFindOk = true → cfg.lidarAttachOk = true →
      cfg.camFindOk = false →
      (mainRun cfg fuel).2 = .fatalNotFound "sensor.camera.rgb" ∧
      Ev.trySpawnActor bp pt ∈ (mainRun cfg fuel).1 ∧
      Ev.spawnActorAttached "sensor.lidar.ray_cast" "ego" ∈ (mainRun cfg fuel).1 ∧
      Ev.spawnActorAttached "sensor.camera.rgb" "ego" ∉ (mainRun cfg fuel).1 ∧
      (∀ a, Ev.destroy a ∉ (mainRun cfg fuel).1)) := by
  refine ⟨?_, ?_, ?_⟩
  · intro hv
    have hrun : mainRun cfg fuel =
        ([Ev.mkdir (cfg.out ++ "/velodyne"), Ev.mkdir (cfg.out ++ "/images"),
          Ev.connect cfg.host cfg.port, Ev.setTimeout, Ev.getWorld,
          Ev.getBlueprintLibrary, Ev.filterBp "vehicle.tesla.model3"],
         .fatalIndexError) := by
      simp [mainRun, hv]
    rw [hrun]
    exact ⟨rfl, by intro b p; simp, by intro b p; simp⟩
  · intro bp pt r1 r2 hv hs h3 h4
    have hrun : mainRun cfg fuel =
        ([Ev.mkdir (cfg.out ++ "/velodyne"), Ev.mkdir (cfg.out ++ "/images"),
          Ev.connect cfg.host cfg.port, Ev.setTimeout, Ev.getWorld,
          Ev.getBlueprintLibrary, Ev.filterBp "vehicle.tesla.model3",
          Ev.getSpawnPoints, Ev.trySpawnActor bp pt,
          Ev.findBp "sensor.lidar.ray_cast"],
         .fatalNotFound "sensor.lidar.ray_cast") := by
      simp [mainRun, hv, hs, h3, h4]
    rw [hrun]
    exact ⟨rfl, by simp, by intro b p; simp, by intro a; simp⟩
  · intro bp pt r1 r2 hv hs h3 h4 h5 h6
    have hrun : mainRun cfg fuel =
        ([Ev.mkdir (cfg.out ++ "/velodyne"), Ev.mkdir (cfg.out ++ "/images"),
          Ev.connect cfg.host cfg.port, Ev.setTimeout, Ev.getWorld,
          Ev.getBlueprintLibrary, Ev.filterBp "vehicle.tesla.model3",
          Ev.getSpawnPoints, Ev.trySpawnActor bp pt,
          Ev.findBp "sensor.lidar.ray_cast", Ev.setAttr "channels" "64",
          Ev.setAttr "rotation_frequency" "10", Ev.setAttr "points_per_second" "1300000",
          Ev.spawnActorAttached "sensor.lidar.ray_cast" "ego",
          Ev.findBp "sensor.camera.rgb"],
         .fatalNotFound "sensor.camera.rgb") := by
      simp [mainRun, hv, hs, h3, h4, h5, h6]
    rw [hrun]
    exact ⟨rfl, by simp, by simp, by simp, by intro a; simp⟩

/-- C9: the two per-sensor output directories velodyne/ and images/ under
the output root are created, in that order, strictly before the client
connection is attempted — the first three events of every run, whatever
its outcome. -/
theorem c9_outdirs_created_before_connect (cfg : Cfg) (fuel : Nat) :
    (mainRun cfg fuel).1.take 3 =
      [Ev.mkdir (cfg.out ++ "/velodyne"), Ev.mkdir (cfg.out ++ "/images"),
       Ev.connect cfg.host cfg.port] := by
  unfold mainRun
  rcases cfg.vehicleFilter with _ | ⟨bp, r1⟩
  · rfl
  rcases cfg.spawnPoints with _ | ⟨pt, r2⟩
  · rfl
  by_cases h3 : cfg.egoSpawnOk <;> by_cases h4 : cfg.lidarFindOk <;>
    by_cases h5 : cfg.lidarAttachOk <;> by_cases h6 : cfg.camFindOk <;>
    by_cases h7 : cfg.camAttachOk <;>
    simp [h3, h4, h5, h6, h7] <;> split <;> simp

/-- C10: both callbacks are deterministic functions of the output
directory, the frame index, the raw buffer, and (camera) the reported
resolution — payload fields such as timestamps do not influence the
target file name or the written bytes. -/
theorem c10_callbacks_deterministic (d : String) (p q : LidarMeasurement)
    (i j : Image)
    (hpf : p.frame = q.frame) (hpd : p.raw_data = q.raw_data)
    (hif : i.frame = j.frame) (hid : i.raw_data = j.raw_data)
    (hiw : i.width = j.width) (hih : i.height = j.height) :
    save_lidar d p = save_lidar d q ∧ save_rgb d i = save_rgb d j := by
  constructor
  · simp [save_lidar, hpf, hpd]
  · simp [save_rgb, hif, hid, hiw, hih]

theorem c10_callbacks_deterministic_witness :
    let p : LidarMeasurement :=
      { frame := 3, raw_data := [1, 2, 3, 4], timestamp := 100,
        horizontal_angle := 10, channels := 64 }
    let q : LidarMeasurement :=
      { frame := 3, raw_data := [1, 2, 3, 4], timestamp := 999,
        horizontal_angle := 350, channels := 32 }
    let i : Image :=
      { frame := 5, raw_data := [9, 8, 7, 6], width := 1, height := 1,
        fov := 90, timestamp := 100 }
    let j : Image :=
      { frame := 5, raw_data := [9, 8, 7, 6], width := 1, height := 1,
        fov := 45, timestamp := 222 }
    save_lidar "d" p = save_lidar "d" q ∧ save_rgb "d" i = save_rgb "d" j :=
  c10_callbacks_deterministic "d" _ _ _ _ rfl rfl rfl rfl rfl rfl

theorem c1_partial_setup_no_teardown_witness :
    (mainRun cfgCamAttachFails 10).2 = .fatalAttach "sensor.camera.rgb" ∧
    (mainRun cfgCamAttachFails 10).2.exitZero = false ∧
    Ev.trySpawnActor "vehicle.tesla.model3" 7 ∈ (mainRun cfgCamAttachFails 10).1 ∧
    Ev.spawnActorAttached "sensor.lidar.ray_cast" "ego" ∈ (mainRun cfgCamAttachFails 10).1 ∧
    (∀ a, Ev.destroy a ∉ (mainRun cfgCamAttachFails 10).1) ∧
    (∀ s, Ev.stop s ∉ (mainRun cfgCamAttachFails 10).1) :=
  c1_partial_setup_no_teardown cfgCamAttachFails 10 "vehicle.tesla.model3" 7 [] []
    rfl rfl rfl rfl rfl rfl rfl

theorem c2_interrupt_still_tears_down_witness :
    (∃ p, (mainRun cfgInterrupted 10).1 = p ++ teardownEvs cfgInterrupted) ∧
    (mainRun cfgInterrupted 10).2 = .fatalInterrupt ∧
    (mainRun cfgInterrupted 10).2.exitZero = false :=
  c2_interrupt_still_tears_down cfgInterrupted 10 1 "vehicle.tesla.model3" 7 [] []
    rfl rfl rfl rfl rfl rfl rfl (by decide) (by decide) rfl
    (by
      intro i h1 h2
      have hi : i = 1 := by omega
      subst hi
      decide)

theorem c3_teardown_order_witness :
    ∃ p, (mainRun cfgBase 10).1 = p ++
      ([Ev.printMsg "Stopping sensors ...", Ev.stop "lidar", Ev.stop "camera",
        Ev.setAutopilot false, Ev.printMsg "Destroying actors ..."]
       ++ (if cfgBase.lidarAlive then [Ev.destroy "lidar"] else [])
       ++ (if cfgBase.camAlive then [Ev.destroy "camera"] else [])
       ++ (if cfgBase.egoAlive then [Ev.destroy "ego"] else [])
       ++ [Ev.printMsg "Done."]) :=
  c3_teardown_order cfgBase 10 (Or.inl (by decide))

theorem c6_ego_spawn_failure_aborts_witness :
    mainRun cfgEgoSpawnFails 10 =
      ([Ev.mkdir (cfgEgoSpawnFails.out ++ "/velodyne"),
        Ev.mkdir (cfgEgoSpawnFails.out ++ "/images"),
        Ev.connect cfgEgoSpawnFails.host cfgEgoSpawnFails.port, Ev.setTimeout,
        Ev.getWorld, Ev.getBlueprintLibrary, Ev.filterBp "vehicle.tesla.model3",
        Ev.getSpawnPoints, Ev.trySpawnActor "vehicle.tesla.model3" 7],
       .fatalRuntime "Failed to spawn ego vehicle (spawn point occupied?)") ∧
    (mainRun cfgEgoSpawnFails 10).1.countP
        (fun e => match e with | Ev.trySpawnActor _ _ => true | _ => false) = 1 ∧
    (∀ b par, Ev.spawnActorAttached b par ∉ (mainRun cfgEgoSpawnFails 10).1) ∧
    (∀ n, Ev.findBp n ∉ (mainRun cfgEgoSpawnFails 10).1) ∧
    (∀ s, Ev.listen s ∉ (mainRun cfgEgoSpawnFails 10).1) :=
  c6_ego_spawn_failure_aborts cfgEgoSpawnFails 10 "vehicle.tesla.model3" 7 [] []
    rfl rfl rfl

theorem c7_capture_loop_polls_until_target_witness :
    (∃ p rest, (mainRun cfgBase 10).1 =
        p ++ [Ev.listen "lidar", Ev.listen "camera", Ev.setAutopilot true,
              Ev.printMsg ("Capturing " ++ toString cfgBase.framesArg
                ++ " frames ... (Ctrl-C to abort)"),
              Ev.getSnapshotFrame 0]
          ++ (pollLoop cfgBase (cfgBase.frameAt 0 + cfgBase.framesArg) 10 1).1 ++ rest) ∧
    (∀ f k, cfgBase.frameAt k < cfgBase.frameAt 0 + cfgBase.framesArg →
        ∃ tail, (pollLoop cfgBase (cfgBase.frameAt 0 + cfgBase.framesArg) (f + 1) k).1
          = Ev.getSnapshotFrame k :: Ev.sleep :: tail) ∧
    (∀ f k, ¬ cfgBase.frameAt k < cfgBase.frameAt 0 + cfgBase.framesArg →
        pollLoop cfgBase (cfgBase.frameAt 0 + cfgBase.framesArg) (f + 1) k
          = ([Ev.getSnapshotFrame k], false, true)) :=
  c7_capture_loop_polls_until_target cfgBase 10 "vehicle.tesla.model3" 7 [] []
    rfl rfl rfl rfl rfl rfl rfl

theorem c8_template_failures_located_witness :
    (mainRun cfgLidarFindFails 10).2 = .fatalNotFound "sensor.lidar.ray_cast" ∧
    Ev.trySpawnActor "vehicle.tesla.model3" 7 ∈ (mainRun cfgLidarFindFails 10).1 ∧
    (∀ b p, Ev.spawnActorAttached b p ∉ (mainRun cfgLidarFindFails 10).1) ∧
    (∀ a, Ev.destroy a ∉ (mainRun cfgLidarFindFails 10).1) :=
  (c8_template_failures_located cfgLidarFindFails 10).2.1 "vehicle.tesla.model3" 7 [] []
    rfl rfl rfl rfl

end SpawnBasic
